import Mathlib

/-!
# Verification of the ShadowPay prover components

Shallow embedding of the repository's two JavaScript source files:

* `prove.js` — a CLI wrapper around `snarkjs.groth16.fullProve` that prints
  `{proof, publicSignals}` (all BigInt leaves stringified) to stdout, or
  `{error: message}` to stderr with exit code 1;
* `prover-service/index.js` — an Express service with a module-level circuit
  cache (`circuits : Map`), `loadCircuit`, and the `/health`, `/prove`,
  `/verify` handlers.

External collaborators (the filesystem, `snarkjs`, `JSON.parse`, the clock)
are modelled as explicit parameters: total functions returning `Except` where
the JavaScript call can throw.  JavaScript values flowing through JSON are
modelled by the inductive `JSVal`, which distinguishes BigInt leaves from
native-number leaves because the spec's serialization claims turn on exactly
that distinction.
-/

namespace ShadowPay

/-- JavaScript values as they appear in the prover's JSON traffic.
`vbigint` is a JS `bigint`; `vnum` is a native `number` (only its type tag
and identity matter here, so it carries an `Int`). -/
inductive JSVal where
  | vbigint : Int → JSVal
  | vnum : Int → JSVal
  | vstr : String → JSVal
  | vbool : Bool → JSVal
  | vnull : JSVal
  | varr : List JSVal → JSVal
  | vobj : List (String × JSVal) → JSVal

/-- JS truthiness of a value (`!v` in the source is `¬ jsTruthy v`). -/
def jsTruthy : JSVal → Bool
  | .vnull => false
  | .vbool b => b
  | .vnum n => n != 0
  | .vbigint n => n != 0
  | .vstr s => s != ""
  | .varr _ => true
  | .vobj _ => true

/-- Truthiness of a possibly-`undefined` value (`none` models `undefined`). -/
def optTruthy : Option JSVal → Bool
  | none => false
  | some v => jsTruthy v

/-- Lookup in a JS object's entry list (first binding wins). -/
def objLookup : List (String × JSVal) → String → Option JSVal
  | [], _ => none
  | (k, v) :: kvs, key => if k = key then some v else objLookup kvs key

/-- Field access `v[key]` on an object value. -/
def bodyLookup : JSVal → String → Option JSVal
  | .vobj kvs, key => objLookup kvs key
  | _, _ => none

/-- The keys of an object value, in order. -/
def objKeys : JSVal → List String
  | .vobj kvs => kvs.map Prod.fst
  | _ => []

mutual

/-- `prove.js` lines 25–30: recursively replace every `bigint` by its decimal
string; arrays and plain objects are traversed; every other value (including
native numbers) is returned unchanged. -/
def stringifyBigInts : JSVal → JSVal
  | .vbigint n => .vstr (toString n)
  | .varr xs => .varr (stringifyArr xs)
  | .vobj kvs => .vobj (stringifyObj kvs)
  | .vnum n => .vnum n
  | .vstr s => .vstr s
  | .vbool b => .vbool b
  | .vnull => .vnull

/-- `stringifyBigInts` mapped over an array (`o.map(stringifyBigInts)`). -/
def stringifyArr : List JSVal → List JSVal
  | [] => []
  | x :: xs => stringifyBigInts x :: stringifyArr xs

/-- `stringifyBigInts` mapped over an object's entries
(`Object.entries(o).map(([k, v]) => [k, stringifyBigInts(v)])`). -/
def stringifyObj : List (String × JSVal) → List (String × JSVal)
  | [] => []
  | (k, v) :: kvs => (k, stringifyBigInts v) :: stringifyObj kvs

end

mutual

/-- Does the value contain a `bigint` leaf? -/
def hasBigInt : JSVal → Bool
  | .vbigint _ => true
  | .varr xs => hasBigIntArr xs
  | .vobj kvs => hasBigIntObj kvs
  | _ => false

/-- Does any element of the list contain a `bigint` leaf? -/
def hasBigIntArr : List JSVal → Bool
  | [] => false
  | x :: xs => hasBigInt x || hasBigIntArr xs

/-- Does any entry value contain a `bigint` leaf? -/
def hasBigIntObj : List (String × JSVal) → Bool
  | [] => false
  | (_, v) :: kvs => hasBigInt v || hasBigIntObj kvs

end

mutual

/-- Does the value contain a native-number leaf? -/
def hasNum : JSVal → Bool
  | .vnum _ => true
  | .varr xs => hasNumArr xs
  | .vobj kvs => hasNumObj kvs
  | _ => false

/-- Does any element of the list contain a native-number leaf? -/
def hasNumArr : List JSVal → Bool
  | [] => false
  | x :: xs => hasNum x || hasNumArr xs

/-- Does any entry value contain a native-number leaf? -/
def hasNumObj : List (String × JSVal) → Bool
  | [] => false
  | (_, v) :: kvs => hasNum v || hasNumObj kvs

end

/-! ## The CLI prover (`prove.js`) -/

/-- Output channel of a process write. -/
inductive Channel where
  | stdout
  | stderr
deriving DecidableEq, Repr

/-- What one run of `prove.js` does: the JSON documents written, in order,
with their channel, and the process exit code. -/
structure CLIResult where
  writes : List (Channel × JSVal)
  exitCode : Nat

/-- The environment a run of `prove.js` executes in: the arguments after the
script name (`process.argv.slice(2)`), and the external calls the script
makes, each able to throw (`Except.error` carries `err.message`). -/
structure CLIEnv where
  argv : List String
  readFileSync : String → Except String String
  parseJSON : String → Except String JSVal
  fullProve : JSVal → String → String → Except String (JSVal × JSVal)

/-- `err?.message || String(err)`: a thrown `Error` with an empty (falsy)
message stringifies as `"Error"`. -/
def errText (m : String) : String := if m = "" then "Error" else m

/-- The catch block of `prove.js`: write `{error: message}` to stderr and
exit with status 1. -/
def cliFail (m : String) : CLIResult :=
  ⟨[(Channel.stderr, .vobj [("error", .vstr (errText m))])], 1⟩

/-- `main` of `prove.js`.  The three positional arguments are destructured
from `argv`; a missing argument is `undefined` and an empty string is falsy,
so both trigger the usage error.  On success exactly one document
`{proof, publicSignals}` (BigInts stringified) goes to stdout and the process
exits 0; any thrown error lands in `cliFail`. -/
def mainCLI (env : CLIEnv) : CLIResult :=
  match env.argv with
  | zkeyPath :: wasmPath :: inputPath :: _ =>
    if zkeyPath = "" ∨ wasmPath = "" ∨ inputPath = "" then
      cliFail "Usage: node prove.js <zkeyPath> <wasmPath> <inputJsonPath>"
    else
      match env.readFileSync inputPath with
      | .error e => cliFail e
      | .ok contents =>
        match env.parseJSON contents with
        | .error e => cliFail e
        | .ok input =>
          match env.fullProve input wasmPath zkeyPath with
          | .error e => cliFail e
          | .ok (proof, publicSignals) =>
            ⟨[(Channel.stdout,
               .vobj [("proof", stringifyBigInts proof),
                      ("publicSignals", stringifyBigInts publicSignals)])], 0⟩
  | _ => cliFail "Usage: node prove.js <zkeyPath> <wasmPath> <inputJsonPath>"

/-! ## The prover service (`prover-service/index.js`) -/

/-- A cached circuit-artifact entry (`{wasm: wasmPath, zkey: zkeyPath}`). -/
structure Circuit where
  wasm : String
  zkey : String
deriving DecidableEq, Repr

/-- The module-level `circuits` Map, as an insertion-ordered association
list (a JS `Map` iterates keys in insertion order). -/
abbrev Circuits := List (String × Circuit)

/-- `circuits.get` / `circuits.has` (first binding wins; a `Map` holds each
key at most once, which insertion-guarded `set` preserves). -/
def lookupCircuit : Circuits → String → Option Circuit
  | [], _ => none
  | (k, c) :: rest, t => if k = t then some c else lookupCircuit rest t

/-- `path.join(a, b)` for the simple two-segment joins the service makes. -/
def pathJoin (a b : String) : String := a ++ "/" ++ b

/-- The filesystem as the service observes it: synchronous existence checks
and reads (a read may throw). -/
structure FS where
  existsSync : String → Bool
  readFileSync : String → Except String String

/-- The snarkjs and JSON operations the service calls, each able to throw. -/
structure SnarkOps where
  fullProve : JSVal → String → String → Except String (JSVal × JSVal)
  exportVerificationKey : String → Except String JSVal
  groth16Verify : JSVal → JSVal → JSVal → Except String Bool
  parseJSON : String → Except String JSVal

/-- Ambient service configuration: the filesystem, the snarkjs bindings, the
resolved circuit directory (`CIRCUIT_DIR` or `__dirname/circuits`), whether
`NODE_ENV === 'development'`, and the stack text attached to a thrown error
(opaque, keyed by its message). -/
structure ServiceEnv where
  fs : FS
  ops : SnarkOps
  circuitDir : String
  nodeEnvDev : Bool
  stackOf : String → String

/-- Everything one `loadCircuit` call produces: its result (`Except.error`
models a throw), the cache afterwards, and the storage paths it touched
(each `fs.existsSync` probe, in order). -/
structure LoadOutcome where
  result : Except String Circuit
  circuits : Circuits
  storageAccesses : List String

/-- `loadCircuit` (index.js lines 25–58): return the cached entry if present;
otherwise check that `<dir>/<type>.wasm` and `<dir>/<type>_final.zkey` exist,
throw a "not found" error naming the first missing file, and only on success
insert `{wasm, zkey}` into the cache.  The body has no `await`, so one call
runs to completion atomically under Node's scheduling. -/
def loadCircuit (fs : FS) (dir : String) (circuits : Circuits)
    (circuitType : String) : LoadOutcome :=
  match lookupCircuit circuits circuitType with
  | some c => ⟨.ok c, circuits, []⟩
  | none =>
    let wasmPath := pathJoin dir (circuitType ++ ".wasm")
    let zkeyPath := pathJoin dir (circuitType ++ "_final.zkey")
    if fs.existsSync wasmPath = false then
      ⟨.error ("WASM file not found: " ++ wasmPath), circuits, [wasmPath]⟩
    else if fs.existsSync zkeyPath = false then
      ⟨.error ("ZKey file not found: " ++ zkeyPath), circuits,
       [wasmPath, zkeyPath]⟩
    else
      ⟨.ok ⟨wasmPath, zkeyPath⟩,
       circuits ++ [(circuitType, ⟨wasmPath, zkeyPath⟩)],
       [wasmPath, zkeyPath]⟩

/-- An HTTP response: status code and JSON body. -/
structure HttpResponse where
  status : Nat
  body : JSVal

/-- Everything one request handler invocation produces: the response, the
cache afterwards, the storage paths touched, and how many snarkjs
prove/verify calls were made. -/
structure HandlerOutcome where
  resp : HttpResponse
  circuits : Circuits
  storageAccesses : List String
  snarkCalls : Nat

/-- The 500 body `{error, stack?}`: `JSON.stringify` drops the `stack` key
when `NODE_ENV` is not `development` (its value is then `undefined`). -/
def errorBody (env : ServiceEnv) (msg : String) : JSVal :=
  .vobj (("error", .vstr msg) ::
    (if env.nodeEnvDev then [("stack", .vstr (env.stackOf msg))] else []))

/-- `GET /health`: status, service name, version, and the cache's keys in
insertion order. -/
def healthHandler (circuits : Circuits) : HttpResponse :=
  ⟨200, .vobj [("status", .vstr "ok"),
               ("service", .vstr "shadowpay-prover"),
               ("version", .vstr "1.0.0"),
               ("loadedCircuits",
                .varr (circuits.map (fun kv => .vstr kv.1)))]⟩

/-- The body of a `POST /prove` request after `express.json`: each field is
`none` when absent (`undefined`). -/
structure ProveReq where
  input : Option JSVal
  circuitType : Option String

/-- The body of a `POST /verify` request. -/
structure VerifyReq where
  proof : Option JSVal
  publicSignals : Option JSVal
  circuitType : Option String

/-- The three `Date.now()` samples one handler invocation takes: at start,
when computing `duration`, and when stamping `timestamp`. -/
structure Clock where
  t0 : Nat
  t1 : Nat
  t2 : Nat

/-- The success metadata `{circuitType, duration, timestamp}` (note the
field is named `duration`, and carries a native number). -/
def respMetadata (circuitType : String) (clk : Clock) : JSVal :=
  .vobj [("circuitType", .vstr circuitType),
         ("duration", .vnum (clk.t1 - clk.t0)),
         ("timestamp", .vnum clk.t2)]

/-- `POST /prove` (index.js lines 75–116): 400 when `input` is absent or
falsy; load the circuit, run `fullProve`, answer
`{proof, publicSignals, metadata}`; any throw yields a 500 `{error, stack?}`. -/
def proveHandler (env : ServiceEnv) (circuits : Circuits) (req : ProveReq)
    (clk : Clock) : HandlerOutcome :=
  match req.input with
  | none => ⟨⟨400, .vobj [("error", .vstr "Missing input parameter")]⟩,
             circuits, [], 0⟩
  | some input =>
    if jsTruthy input = false then
      ⟨⟨400, .vobj [("error", .vstr "Missing input parameter")]⟩,
       circuits, [], 0⟩
    else
      let circuitType := req.circuitType.getD "spending"
      let lo := loadCircuit env.fs env.circuitDir circuits circuitType
      match lo.result with
      | .error msg =>
        ⟨⟨500, errorBody env msg⟩, lo.circuits, lo.storageAccesses, 0⟩
      | .ok circuit =>
        match env.ops.fullProve input circuit.wasm circuit.zkey with
        | .error msg =>
          ⟨⟨500, errorBody env msg⟩, lo.circuits, lo.storageAccesses, 1⟩
        | .ok (proof, publicSignals) =>
          ⟨⟨200, .vobj [("proof", proof),
                        ("publicSignals", publicSignals),
                        ("metadata", respMetadata circuitType clk)]⟩,
           lo.circuits, lo.storageAccesses, 1⟩

/-- Character-level core of `String.prototype.replace` with a string
pattern: replace the first occurrence of `pat` only, scanning left to
right. -/
def listReplaceFirst : List Char → List Char → List Char → List Char
  | [], _, _ => []
  | c :: tl, pat, rep =>
    if List.isPrefixOf pat (c :: tl) then rep ++ (c :: tl).drop pat.length
    else c :: listReplaceFirst tl pat rep

/-- `String.prototype.replace` with a string pattern: replace the FIRST
occurrence only. -/
def replaceFirst (s pat rep : String) : String :=
  ⟨listReplaceFirst s.data pat.data rep.data⟩

/-- The verification-key resolution step of `POST /verify` (lines 134–142):
read and parse `<type>_verification_key.json` when it exists, otherwise
export the key from the zkey.  Also returns the storage paths touched. -/
def resolveVKey (env : ServiceEnv) (circuit : Circuit) :
    Except String JSVal × List String :=
  let vKeyPath := replaceFirst circuit.zkey "_final.zkey" "_verification_key.json"
  if env.fs.existsSync vKeyPath then
    match env.fs.readFileSync vKeyPath with
    | .error e => (.error e, [vKeyPath, vKeyPath])
    | .ok contents => (env.ops.parseJSON contents, [vKeyPath, vKeyPath])
  else
    (env.ops.exportVerificationKey circuit.zkey, [vKeyPath])

/-- `POST /verify` (index.js lines 121–166): 400 when `proof` or
`publicSignals` is absent or falsy; load the circuit, resolve the
verification key (precomputed file first, else derived from the zkey), run
`groth16.verify`, answer `{valid, metadata}`; any throw yields a 500. -/
def verifyHandler (env : ServiceEnv) (circuits : Circuits) (req : VerifyReq)
    (clk : Clock) : HandlerOutcome :=
  match req.proof, req.publicSignals with
  | some proof, some publicSignals =>
    if jsTruthy proof = false ∨ jsTruthy publicSignals = false then
      ⟨⟨400, .vobj [("error", .vstr "Missing proof or publicSignals")]⟩,
       circuits, [], 0⟩
    else
      let circuitType := req.circuitType.getD "spending"
      let lo := loadCircuit env.fs env.circuitDir circuits circuitType
      match lo.result with
      | .error msg =>
        ⟨⟨500, errorBody env msg⟩, lo.circuits, lo.storageAccesses, 0⟩
      | .ok circuit =>
        let vk := resolveVKey env circuit
        match vk.1 with
        | .error msg =>
          ⟨⟨500, errorBody env msg⟩, lo.circuits,
           lo.storageAccesses ++ vk.2, 0⟩
        | .ok vKey =>
          match env.ops.groth16Verify vKey publicSignals proof with
          | .error msg =>
            ⟨⟨500, errorBody env msg⟩, lo.circuits,
             lo.storageAccesses ++ vk.2, 1⟩
          | .ok isValid =>
            ⟨⟨200, .vobj [("valid", .vbool isValid),
                          ("metadata", respMetadata circuitType clk)]⟩,
             lo.circuits, lo.storageAccesses ++ vk.2, 1⟩
  | _, _ =>
    ⟨⟨400, .vobj [("error", .vstr "Missing proof or publicSignals")]⟩,
     circuits, [], 0⟩

/-- A batch of same-`circuitType` `loadCircuit` invocations running under
Node's cooperative scheduler.  `loadCircuit` contains no `await`, so each
concurrent call executes its whole body atomically; any concurrent execution
is therefore equivalent to some sequential order, which this function runs,
collecting every caller's result, the final cache, and all storage accesses. -/
def runLoads (fs : FS) (dir t : String) :
    Nat → Circuits → List (Except String Circuit) × Circuits × List String
  | 0, circuits => ([], circuits, [])
  | n + 1, circuits =>
    let lo := loadCircuit fs dir circuits t
    let rest := runLoads fs dir t n lo.circuits
    (lo.result :: rest.1, rest.2.1, lo.storageAccesses ++ rest.2.2)

/-! ## Concrete environments used to instantiate the theorems -/

/-- A CLI environment in which every external call succeeds and the proof
contains a BigInt exceeding 64-bit range. -/
def cliEnvOk : CLIEnv where
  argv := ["k.zkey", "c.wasm", "input.json"]
  readFileSync := fun _ => .ok "\x7b\x7d"
  parseJSON := fun _ => .ok (.vobj [])
  fullProve := fun _ _ _ =>
    .ok (.vobj [("pi_a", .varr [.vbigint (2 ^ 70), .vbigint 1]),
                ("protocol", .vstr "groth16")],
         .varr [.vbigint (2 ^ 65 + 3)])

/-- A filesystem on which every path exists and every read succeeds. -/
def fsAll : FS where
  existsSync := fun _ => true
  readFileSync := fun _ => .ok "\x7b\x7d"

/-- A filesystem on which no path exists. -/
def fsNone : FS where
  existsSync := fun _ => false
  readFileSync := fun _ => .error "ENOENT"

/-- snarkjs operations that all succeed. -/
def opsOk : SnarkOps where
  fullProve := fun _ _ _ => .ok (.vobj [("pi_a", .varr [.vstr "1"])], .varr [.vstr "7"])
  exportVerificationKey := fun _ => .ok (.vobj [("curve", .vstr "bn128")])
  groth16Verify := fun _ _ _ => .ok true
  parseJSON := fun _ => .ok (.vobj [("curve", .vstr "bn128")])

/-- A service environment in which every artifact exists and every snarkjs
call succeeds. -/
def envOk : ServiceEnv where
  fs := fsAll
  ops := opsOk
  circuitDir := "/c"
  nodeEnvDev := false
  stackOf := fun _ => ""

/-- A service environment in which the artifact files and the precomputed
verification-key file all exist, but the verification-key file's contents do
not parse as JSON. -/
def envBadVKey : ServiceEnv where
  fs := fsAll
  ops := { opsOk with parseJSON := fun _ => .error "Unexpected token v in JSON" }
  circuitDir := "/c"
  nodeEnvDev := false
  stackOf := fun _ => ""

/-- A service environment whose circuit directory is empty. -/
def envEmptyFS : ServiceEnv where
  fs := fsNone
  ops := opsOk
  circuitDir := "/c"
  nodeEnvDev := false
  stackOf := fun _ => ""

/-- A fixed clock sample. -/
def clk0 : Clock := ⟨10, 25, 26⟩

/-- A truthy stand-in proof object. -/
def proofV : JSVal := .vobj [("pi_a", .varr [.vstr "1"])]

/-- A truthy stand-in public-signals array. -/
def signalsV : JSVal := .varr [.vstr "7"]

/-! ## Helper lemmas -/

theorem lookupCircuit_append_some {circuits : Circuits} {t : String}
    {c : Circuit} (h : lookupCircuit circuits t = some c)
    (rest : Circuits) : lookupCircuit (circuits ++ rest) t = some c := by
  induction circuits with
  | nil => simp [lookupCircuit] at h
  | cons kv tl ih =>
    obtain ⟨k, v⟩ := kv
    by_cases hk : k = t
    · subst hk
      simp [lookupCircuit] at h ⊢
      exact h
    · simp [lookupCircuit, hk] at h ⊢
      exact ih h

theorem lookupCircuit_append_fresh {circuits : Circuits} {t : String}
    (h : lookupCircuit circuits t = none) (c : Circuit) :
    lookupCircuit (circuits ++ [(t, c)]) t = some c := by
  induction circuits with
  | nil => simp [lookupCircuit]
  | cons kv tl ih =>
    obtain ⟨k, v⟩ := kv
    by_cases hk : k = t
    · subst hk
      simp [lookupCircuit] at h
    · simp [lookupCircuit, hk] at h ⊢
      exact ih h

theorem lookupCircuit_none_notMem {circuits : Circuits} {t : String}
    (h : lookupCircuit circuits t = none) :
    ∀ kv ∈ circuits, kv.1 ≠ t := by
  induction circuits with
  | nil => intro kv hm; simp at hm
  | cons hd tl ih =>
    obtain ⟨k, v⟩ := hd
    by_cases hk : k = t
    · subst hk
      simp [lookupCircuit] at h
    · simp [lookupCircuit, hk] at h
      intro kv hm
      rcases List.mem_cons.mp hm with hh | hh
      · subst hh; exact hk
      · exact ih h kv hh

mutual

theorem hasBigInt_stringifyBigInts (v : JSVal) :
    hasBigInt (stringifyBigInts v) = false := by
  cases v with
  | vbigint n => simp [stringifyBigInts, hasBigInt]
  | vnum n => simp [stringifyBigInts, hasBigInt]
  | vstr s => simp [stringifyBigInts, hasBigInt]
  | vbool b => simp [stringifyBigInts, hasBigInt]
  | vnull => simp [stringifyBigInts, hasBigInt]
  | varr xs =>
    simpa [stringifyBigInts, hasBigInt] using hasBigIntArr_stringifyArr xs
  | vobj kvs =>
    simpa [stringifyBigInts, hasBigInt] using hasBigIntObj_stringifyObj kvs

theorem hasBigIntArr_stringifyArr (xs : List JSVal) :
    hasBigIntArr (stringifyArr xs) = false := by
  cases xs with
  | nil => simp [stringifyArr, hasBigIntArr]
  | cons x tl =>
    simp [stringifyArr, hasBigIntArr, hasBigInt_stringifyBigInts x,
      hasBigIntArr_stringifyArr tl]

theorem hasBigIntObj_stringifyObj (kvs : List (String × JSVal)) :
    hasBigIntObj (stringifyObj kvs) = false := by
  cases kvs with
  | nil => simp [stringifyObj, hasBigIntObj]
  | cons kv tl =>
    obtain ⟨k, v⟩ := kv
    simp [stringifyObj, hasBigIntObj, hasBigInt_stringifyBigInts v,
      hasBigIntObj_stringifyObj tl]

end

mutual

theorem hasNum_stringifyBigInts (v : JSVal) :
    hasNum (stringifyBigInts v) = hasNum v := by
  cases v with
  | vbigint n => simp [stringifyBigInts, hasNum]
  | vnum n => simp [stringifyBigInts, hasNum]
  | vstr s => simp [stringifyBigInts, hasNum]
  | vbool b => simp [stringifyBigInts, hasNum]
  | vnull => simp [stringifyBigInts, hasNum]
  | varr xs =>
    simpa [stringifyBigInts, hasNum] using hasNumArr_stringifyArr xs
  | vobj kvs =>
    simpa [stringifyBigInts, hasNum] using hasNumObj_stringifyObj kvs

theorem hasNumArr_stringifyArr (xs : List JSVal) :
    hasNumArr (stringifyArr xs) = hasNumArr xs := by
  cases xs with
  | nil => simp [stringifyArr, hasNumArr]
  | cons x tl =>
    simp [stringifyArr, hasNumArr, hasNum_stringifyBigInts x,
      hasNumArr_stringifyArr tl]

theorem hasNumObj_stringifyObj (kvs : List (String × JSVal)) :
    hasNumObj (stringifyObj kvs) = hasNumObj kvs := by
  cases kvs with
  | nil => simp [stringifyObj, hasNumObj]
  | cons kv tl =>
    obtain ⟨k, v⟩ := kv
    simp [stringifyObj, hasNumObj, hasNum_stringifyBigInts v,
      hasNumObj_stringifyObj tl]

end

/-! ## Claim theorems -/

/-- C1: when the CLI prover's arguments are present, the input file reads and
parses, and proof generation succeeds — with the snarkjs outputs containing
no native-number leaves, as snarkjs represents all field values as BigInts
or decimal strings — the process writes exactly one JSON document to stdout,
with exactly the keys `proof` and `publicSignals`, in which no BigInt leaf
remains (each was replaced by its decimal string) and no native machine
number occurs. -/
theorem cli_success_single_stringified_doc (env : CLIEnv)
    (zkeyPath wasmPath inputPath : String) (rest : List String)
    (contents : String) (input proof publicSignals : JSVal)
    (hargv : env.argv = zkeyPath :: wasmPath :: inputPath :: rest)
    (hz : zkeyPath ≠ "") (hw : wasmPath ≠ "") (hi : inputPath ≠ "")
    (hread : env.readFileSync inputPath = .ok contents)
    (hparse : env.parseJSON contents = .ok input)
    (hprove : env.fullProve input wasmPath zkeyPath = .ok (proof, publicSignals))
    (hpn : hasNum proof = false) (hsn : hasNum publicSignals = false) :
    ∃ doc, mainCLI env = ⟨[(Channel.stdout, doc)], 0⟩ ∧
      objKeys doc = ["proof", "publicSignals"] ∧
      hasBigInt doc = false ∧ hasNum doc = false := by
  refine ⟨.vobj [("proof", stringifyBigInts proof),
                 ("publicSignals", stringifyBigInts publicSignals)], ?_, ?_, ?_, ?_⟩
  · simp [mainCLI, hargv, hz, hw, hi, hread, hparse, hprove]
  · simp [objKeys]
  · simp [hasBigInt, hasBigIntObj, hasBigInt_stringifyBigInts]
  · simp [hasNum, hasNumObj, hasNum_stringifyBigInts, hpn, hsn]

/-- Witness for C1 at a concrete environment whose proof contains the BigInt
`2 ^ 70`. -/
theorem cli_success_single_stringified_doc_witness :
    ∃ doc, mainCLI cliEnvOk = ⟨[(Channel.stdout, doc)], 0⟩ ∧
      objKeys doc = ["proof", "publicSignals"] ∧
      hasBigInt doc = false ∧ hasNum doc = false :=
  cli_success_single_stringified_doc cliEnvOk "k.zkey" "c.wasm" "input.json"
    [] "\x7b\x7d" (.vobj [])
    (.vobj [("pi_a", .varr [.vbigint (2 ^ 70), .vbigint 1]),
            ("protocol", .vstr "groth16")])
    (.varr [.vbigint (2 ^ 65 + 3)])
    rfl (by simp) (by simp) (by simp) rfl rfl rfl
    (by simp [hasNum, hasNumObj, hasNumArr]) (by simp [hasNum, hasNumArr])

/-- C2: every run of the CLI prover either completes the whole pipeline and
writes exactly one success document to stdout with exit code 0, or writes
exactly one `{error: message}` document to stderr with exit code 1 and
nothing at all to stdout — so no failing execution (missing argument, failed
read, failed parse, failed proof generation) ever writes partial output to
stdout or exits 0. -/
theorem cli_failure_only_stderr_error (env : CLIEnv) :
    (∃ m, mainCLI env =
        ⟨[(Channel.stderr, .vobj [("error", .vstr m)])], 1⟩) ∨
    (∃ zkeyPath wasmPath inputPath rest contents input proof publicSignals,
      env.argv = zkeyPath :: wasmPath :: inputPath :: rest ∧
      env.readFileSync inputPath = .ok contents ∧
      env.parseJSON contents = .ok input ∧
      env.fullProve input wasmPath zkeyPath = .ok (proof, publicSignals) ∧
      mainCLI env =
        ⟨[(Channel.stdout,
           .vobj [("proof", stringifyBigInts proof),
                  ("publicSignals", stringifyBigInts publicSignals)])], 0⟩) := by
  rcases hargv : env.argv with _ | ⟨z, _ | ⟨w, _ | ⟨i, rest⟩⟩⟩
  · exact Or.inl ⟨errText "Usage: node prove.js <zkeyPath> <wasmPath> <inputJsonPath>",
      by simp [mainCLI, hargv, cliFail]⟩
  · exact Or.inl ⟨errText "Usage: node prove.js <zkeyPath> <wasmPath> <inputJsonPath>",
      by simp [mainCLI, hargv, cliFail]⟩
  · exact Or.inl ⟨errText "Usage: node prove.js <zkeyPath> <wasmPath> <inputJsonPath>",
      by simp [mainCLI, hargv, cliFail]⟩
  · by_cases hempty : z = "" ∨ w = "" ∨ i = ""
    · exact Or.inl ⟨errText "Usage: node prove.js <zkeyPath> <wasmPath> <inputJsonPath>",
        by simp [mainCLI, hargv, hempty, cliFail]⟩
    · push_neg at hempty
      obtain ⟨hz, hw, hi⟩ := hempty
      rcases hread : env.readFileSync i with e | contents
      · exact Or.inl ⟨errText e,
          by simp [mainCLI, hargv, hz, hw, hi, hread, cliFail]⟩
      · rcases hparse : env.parseJSON contents with e | input
        · exact Or.inl ⟨errText e,
            by simp [mainCLI, hargv, hz, hw, hi, hread, hparse, cliFail]⟩
        · rcases hprove : env.fullProve input w z with e | pp
          · exact Or.inl ⟨errText e,
              by simp [mainCLI, hargv, hz, hw, hi, hread, hparse, hprove,
                cliFail]⟩
          · obtain ⟨proof, publicSignals⟩ := pp
            exact Or.inr ⟨z, w, i, rest, contents, input, proof, publicSignals,
              rfl, hread, hparse, hprove,
              by simp [mainCLI, hargv, hz, hw, hi, hread, hparse, hprove]⟩

/-- C3: loadCircuit is idempotent.  After a successful load of `t` the cache
maps `t` to the returned artifact; every later `loadCircuit` call (for any
circuit type, on any filesystem) preserves that binding; and every call for
`t` against a cache holding it returns exactly the cached `{wasm, zkey}`
entry, leaves the cache unchanged, and performs no storage access at all. -/
theorem loadCircuit_idempotent_after_success (fs : FS) (dir : String)
    (circuits : Circuits) (t : String) (c : Circuit)
    (h : (loadCircuit fs dir circuits t).result = .ok c) :
    lookupCircuit (loadCircuit fs dir circuits t).circuits t = some c ∧
    (∀ (fs2 : FS) (circuits2 : Circuits) (t2 : String) (c2 : Circuit),
      lookupCircuit circuits2 t = some c2 →
      lookupCircuit (loadCircuit fs2 dir circuits2 t2).circuits t = some c2) ∧
    (∀ (fs2 : FS) (circuits2 : Circuits),
      lookupCircuit circuits2 t = some c →
      loadCircuit fs2 dir circuits2 t = ⟨.ok c, circuits2, []⟩) := by
  refine ⟨?_, ?_, ?_⟩
  · rcases hl : lookupCircuit circuits t with _ | c0
    · by_cases hw : fs.existsSync (pathJoin dir (t ++ ".wasm")) = false
      · simp [loadCircuit, hl, hw] at h
      · by_cases hz : fs.existsSync (pathJoin dir (t ++ "_final.zkey")) = false
        · simp [loadCircuit, hl, hw, hz] at h
        · have hc : (⟨pathJoin dir (t ++ ".wasm"),
              pathJoin dir (t ++ "_final.zkey")⟩ : Circuit) = c := by
            simpa [loadCircuit, hl, hw, hz] using h
          subst hc
          simpa [loadCircuit, hl, hw, hz] using
            lookupCircuit_append_fresh hl _
    · have hc : c0 = c := by simpa [loadCircuit, hl] using h
      subst hc
      simp [loadCircuit, hl]
  · intro fs2 circuits2 t2 c2 h2
    rcases hl : lookupCircuit circuits2 t2 with _ | c0
    · by_cases hw : fs2.existsSync (pathJoin dir (t2 ++ ".wasm")) = false
      · simpa [loadCircuit, hl, hw] using h2
      · by_cases hz : fs2.existsSync (pathJoin dir (t2 ++ "_final.zkey")) = false
        · simpa [loadCircuit, hl, hw, hz] using h2
        · simp [loadCircuit, hl, hw, hz]
          exact lookupCircuit_append_some h2 _
    · simpa [loadCircuit, hl] using h2
  · intro fs2 circuits2 h2
    simp [loadCircuit, h2]

/-- Witness for C3: a fresh successful load of "spending", then a repeat call
(even against a filesystem where nothing exists) returns the cached entry with
no storage access. -/
theorem loadCircuit_idempotent_after_success_witness :
    lookupCircuit (loadCircuit fsAll "/c" [] "spending").circuits "spending" =
      some ⟨"/c/spending.wasm", "/c/spending_final.zkey"⟩ ∧
    loadCircuit fsNone "/c" [("spending", ⟨"/c/spending.wasm", "/c/spending_final.zkey"⟩)]
        "spending" =
      ⟨.ok ⟨"/c/spending.wasm", "/c/spending_final.zkey"⟩,
       [("spending", ⟨"/c/spending.wasm", "/c/spending_final.zkey"⟩)], []⟩ := by
  have h := loadCircuit_idempotent_after_success fsAll "/c" [] "spending"
    ⟨"/c/spending.wasm", "/c/spending_final.zkey"⟩ rfl
  exact ⟨h.1, h.2.2 fsNone _ rfl⟩

/-- C4: for a circuit type not in the cache, loadCircuit throws a
"file not found" error exactly when the witness-generator file
`<dir>/<t>.wasm` or the proving-key file `<dir>/<t>_final.zkey` is absent,
and succeeds with exactly those two paths when both are present. -/
theorem loadCircuit_uncached_fails_iff_artifact_missing (fs : FS)
    (dir : String) (circuits : Circuits) (t : String)
    (h : lookupCircuit circuits t = none) :
    ((fs.existsSync (pathJoin dir (t ++ ".wasm")) = true ∧
      fs.existsSync (pathJoin dir (t ++ "_final.zkey")) = true) →
      (loadCircuit fs dir circuits t).result =
        .ok ⟨pathJoin dir (t ++ ".wasm"), pathJoin dir (t ++ "_final.zkey")⟩) ∧
    ((∃ e, (loadCircuit fs dir circuits t).result = .error e ∧
        (e = "WASM file not found: " ++ pathJoin dir (t ++ ".wasm") ∨
         e = "ZKey file not found: " ++ pathJoin dir (t ++ "_final.zkey"))) ↔
      (fs.existsSync (pathJoin dir (t ++ ".wasm")) = false ∨
       fs.existsSync (pathJoin dir (t ++ "_final.zkey")) = false)) := by
  by_cases hw : fs.existsSync (pathJoin dir (t ++ ".wasm")) = false
  · constructor
    · rintro ⟨hw1, _⟩
      rw [hw1] at hw
      simp at hw
    · simp [loadCircuit, h, hw]
  · by_cases hz : fs.existsSync (pathJoin dir (t ++ "_final.zkey")) = false
    · constructor
      · rintro ⟨_, hz1⟩
        rw [hz1] at hz
        simp at hz
      · simp [loadCircuit, h, hw, hz]
    · constructor
      · intro _
        simp [loadCircuit, h, hw, hz]
      · simp [loadCircuit, h, hw, hz]

/-- Witness for C4 on a filesystem holding both artifacts and on one holding
neither. -/
theorem loadCircuit_uncached_fails_iff_artifact_missing_witness :
    (loadCircuit fsAll "/c" [] "spending").result =
      .ok ⟨"/c/spending.wasm", "/c/spending_final.zkey"⟩ ∧
    (fsNone.existsSync "/c/spending.wasm" = false ∨
      fsNone.existsSync "/c/spending_final.zkey" = false) := by
  refine ⟨(loadCircuit_uncached_fails_iff_artifact_missing fsAll "/c" [] "spending"
    rfl).1 ⟨rfl, rfl⟩, ?_⟩
  exact (loadCircuit_uncached_fails_iff_artifact_missing fsNone "/c" [] "spending"
    rfl).2.mp ⟨"WASM file not found: /c/spending.wasm", rfl, Or.inl rfl⟩

/-- C10: a failed load is atomic on the cache.  If `t` is uncached and its
load throws, the cache is unchanged, `GET /health` still reports exactly the
previous `loadedCircuits` — which cannot mention `t` — and a later
`loadCircuit` call for `t` (against any filesystem) probes storage again. -/
theorem load_failure_leaves_cache_unchanged (fs fs2 : FS) (dir : String)
    (circuits : Circuits) (t : String) (e : String)
    (hnone : lookupCircuit circuits t = none)
    (herr : (loadCircuit fs dir circuits t).result = .error e) :
    (loadCircuit fs dir circuits t).circuits = circuits ∧
    bodyLookup (healthHandler (loadCircuit fs dir circuits t).circuits).body
        "loadedCircuits" =
      some (.varr (circuits.map (fun kv => .vstr kv.1))) ∧
    JSVal.vstr t ∉ circuits.map (fun kv : String × Circuit => .vstr kv.1) ∧
    (loadCircuit fs2 dir circuits t).storageAccesses ≠ [] := by
  have hcirc : (loadCircuit fs dir circuits t).circuits = circuits := by
    by_cases hw : fs.existsSync (pathJoin dir (t ++ ".wasm")) = false
    · simp [loadCircuit, hnone, hw]
    · by_cases hz : fs.existsSync (pathJoin dir (t ++ "_final.zkey")) = false
      · simp [loadCircuit, hnone, hw, hz]
      · simp [loadCircuit, hnone, hw, hz] at herr
  refine ⟨hcirc, ?_, ?_, ?_⟩
  · rw [hcirc]
    simp [healthHandler, bodyLookup, objLookup]
  · intro hmem
    obtain ⟨kv, hkv, heq⟩ := List.mem_map.mp hmem
    exact lookupCircuit_none_notMem hnone kv hkv (JSVal.vstr.inj heq)
  · by_cases hw : fs2.existsSync (pathJoin dir (t ++ ".wasm")) = false
    · simp [loadCircuit, hnone, hw]
    · by_cases hz : fs2.existsSync (pathJoin dir (t ++ "_final.zkey")) = false
      · simp [loadCircuit, hnone, hw, hz]
      · simp [loadCircuit, hnone, hw, hz]

/-- Witness for C10: loading "spending" from an empty circuit directory
fails, caches nothing, and the retry probes the wasm path again. -/
theorem load_failure_leaves_cache_unchanged_witness :
    (loadCircuit fsNone "/c" [] "spending").circuits = [] ∧
    (loadCircuit fsNone "/c" [] "spending").storageAccesses ≠ [] := by
  have h := load_failure_leaves_cache_unchanged fsNone fsNone "/c" [] "spending"
    ("WASM file not found: /c/spending.wasm") rfl rfl
  exact ⟨h.1, h.2.2.2⟩

theorem runLoads_cached (fs : FS) (dir t : String) (circuits : Circuits)
    (c : Circuit) (h : lookupCircuit circuits t = some c) (n : Nat) :
    runLoads fs dir t n circuits = (List.replicate n (.ok c), circuits, []) := by
  induction n with
  | zero => simp [runLoads]
  | succ k ih => simp [runLoads, loadCircuit, h, ih, List.replicate_succ]

theorem runLoads_failing (fs : FS) (dir t : String) (circuits : Circuits)
    (e : String) (acc : List String)
    (h : loadCircuit fs dir circuits t = ⟨.error e, circuits, acc⟩) (n : Nat) :
    runLoads fs dir t n circuits =
      (List.replicate n (.error e), circuits, (List.replicate n acc).flatten) := by
  induction n with
  | zero => simp [runLoads]
  | succ k ih => simp [runLoads, h, ih, List.replicate_succ]

/-- C9 counterexample: with the artifact files absent, two concurrent
`loadCircuit` calls for the uncached type "spending" perform two storage
probes — one per caller — refuting "exactly one load executes against
storage (artifacts are read from storage at most once per circuit per
process)". -/
theorem concurrent_load_failure_reads_storage_twice :
    (runLoads fsNone "/c" "spending" 2 []).2.2 =
      ["/c/spending.wasm", "/c/spending.wasm"] ∧
    ¬ (runLoads fsNone "/c" "spending" 2 []).2.2.length ≤ 1 := by
  refine ⟨rfl, ?_⟩
  intro hle
  rw [show (runLoads fsNone "/c" "spending" 2 []).2.2 =
      ["/c/spending.wasm", "/c/spending.wasm"] from rfl] at hle
  simp at hle

/-- C9 amended: `loadCircuit` has no suspension point, so concurrent calls
under the host's run-to-completion scheduler execute in some sequential
order (`runLoads`).  For an uncached circuit type: (a) when both artifact
files exist, only the first of the callers touches storage (exactly one
wasm probe and one zkey probe in total) and every caller receives the same
complete artifact; (b) when an artifact file is missing, every caller
receives the same failure but performs its own storage probes, so storage is
read once per caller rather than once per circuit; (c) at every intermediate
point the cache is either unchanged or holds the one complete entry — a
partially-loaded entry is never visible. -/
theorem concurrent_loads_single_flight (fs : FS) (dir t : String)
    (circuits : Circuits) (n : Nat)
    (hnone : lookupCircuit circuits t = none) :
    ((fs.existsSync (pathJoin dir (t ++ ".wasm")) = true ∧
      fs.existsSync (pathJoin dir (t ++ "_final.zkey")) = true) →
      runLoads fs dir t (n + 1) circuits =
        (List.replicate (n + 1)
          (.ok ⟨pathJoin dir (t ++ ".wasm"), pathJoin dir (t ++ "_final.zkey")⟩),
         circuits ++
           [(t, ⟨pathJoin dir (t ++ ".wasm"), pathJoin dir (t ++ "_final.zkey")⟩)],
         [pathJoin dir (t ++ ".wasm"), pathJoin dir (t ++ "_final.zkey")])) ∧
    ((fs.existsSync (pathJoin dir (t ++ ".wasm")) = false ∨
      fs.existsSync (pathJoin dir (t ++ "_final.zkey")) = false) →
      ∃ e acc, runLoads fs dir t n circuits =
        (List.replicate n (.error e), circuits, acc) ∧ n ≤ acc.length) ∧
    (∀ k, (runLoads fs dir t k circuits).2.1 = circuits ∨
      (runLoads fs dir t k circuits).2.1 =
        circuits ++
          [(t, ⟨pathJoin dir (t ++ ".wasm"), pathJoin dir (t ++ "_final.zkey")⟩)]) := by
  refine ⟨?_, ?_, ?_⟩
  · rintro ⟨hw, hz⟩
    have hload : loadCircuit fs dir circuits t =
        ⟨.ok ⟨pathJoin dir (t ++ ".wasm"), pathJoin dir (t ++ "_final.zkey")⟩,
         circuits ++
           [(t, ⟨pathJoin dir (t ++ ".wasm"), pathJoin dir (t ++ "_final.zkey")⟩)],
         [pathJoin dir (t ++ ".wasm"), pathJoin dir (t ++ "_final.zkey")]⟩ := by
      simp [loadCircuit, hnone, hw, hz]
    have hcached := runLoads_cached fs dir t
      (circuits ++
        [(t, ⟨pathJoin dir (t ++ ".wasm"), pathJoin dir (t ++ "_final.zkey")⟩)])
      ⟨pathJoin dir (t ++ ".wasm"), pathJoin dir (t ++ "_final.zkey")⟩
      (lookupCircuit_append_fresh hnone _) n
    simp [runLoads, hload, hcached, List.replicate_succ]
  · intro hmiss
    by_cases hw : fs.existsSync (pathJoin dir (t ++ ".wasm")) = false
    · refine ⟨"WASM file not found: " ++ pathJoin dir (t ++ ".wasm"),
        (List.replicate n [pathJoin dir (t ++ ".wasm")]).flatten, ?_, ?_⟩
      · exact runLoads_failing fs dir t circuits _ _
          (by simp [loadCircuit, hnone, hw]) n
      · simp
    · have hz : fs.existsSync (pathJoin dir (t ++ "_final.zkey")) = false := by
        rcases hmiss with hm | hm
        · exact absurd hm hw
        · exact hm
      refine ⟨"ZKey file not found: " ++ pathJoin dir (t ++ "_final.zkey"),
        (List.replicate n
          [pathJoin dir (t ++ ".wasm"), pathJoin dir (t ++ "_final.zkey")]).flatten,
        ?_, ?_⟩
      · exact runLoads_failing fs dir t circuits _ _
          (by simp [loadCircuit, hnone, hw, hz]) n
      · simp
        omega
  · intro k
    induction k with
    | zero => left; simp [runLoads]
    | succ m ih =>
      by_cases hw : fs.existsSync (pathJoin dir (t ++ ".wasm")) = false
      · have hload : loadCircuit fs dir circuits t =
            ⟨.error ("WASM file not found: " ++ pathJoin dir (t ++ ".wasm")),
             circuits, [pathJoin dir (t ++ ".wasm")]⟩ := by
          simp [loadCircuit, hnone, hw]
        simpa [runLoads, hload] using ih
      · by_cases hz : fs.existsSync (pathJoin dir (t ++ "_final.zkey")) = false
        · have hload : loadCircuit fs dir circuits t =
              ⟨.error ("ZKey file not found: " ++ pathJoin dir (t ++ "_final.zkey")),
               circuits,
               [pathJoin dir (t ++ ".wasm"), pathJoin dir (t ++ "_final.zkey")]⟩ := by
            simp [loadCircuit, hnone, hw, hz]
          simpa [runLoads, hload] using ih
        · right
          have hload : loadCircuit fs dir circuits t =
              ⟨.ok ⟨pathJoin dir (t ++ ".wasm"), pathJoin dir (t ++ "_final.zkey")⟩,
               circuits ++
                 [(t, ⟨pathJoin dir (t ++ ".wasm"),
                     pathJoin dir (t ++ "_final.zkey")⟩)],
               [pathJoin dir (t ++ ".wasm"), pathJoin dir (t ++ "_final.zkey")]⟩ := by
            simp [loadCircuit, hnone, hw, hz]
          have hcached := runLoads_cached fs dir t
            (circuits ++
              [(t, ⟨pathJoin dir (t ++ ".wasm"),
                  pathJoin dir (t ++ "_final.zkey")⟩)])
            ⟨pathJoin dir (t ++ ".wasm"), pathJoin dir (t ++ "_final.zkey")⟩
            (lookupCircuit_append_fresh hnone _) m
          simp [runLoads, hload, hcached]

/-- Witness for the amended C9: with both artifacts present, two callers
share one load — storage is probed once for the wasm and once for the zkey —
and both receive the same artifact. -/
theorem concurrent_loads_single_flight_witness :
    runLoads fsAll "/c" "spending" 2 [] =
      (List.replicate 2 (.ok ⟨"/c/spending.wasm", "/c/spending_final.zkey"⟩),
       [("spending", ⟨"/c/spending.wasm", "/c/spending_final.zkey"⟩)],
       ["/c/spending.wasm", "/c/spending_final.zkey"]) :=
  (concurrent_loads_single_flight fsAll "/c" "spending" [] 1 rfl).1 ⟨rfl, rfl⟩

theorem loadCircuit_rerun (fs : FS) (dir : String) (circuits : Circuits)
    (t : String) :
    (loadCircuit fs dir (loadCircuit fs dir circuits t).circuits t).result =
      (loadCircuit fs dir circuits t).result ∧
    (loadCircuit fs dir (loadCircuit fs dir circuits t).circuits t).circuits =
      (loadCircuit fs dir circuits t).circuits := by
  rcases hl : lookupCircuit circuits t with _ | c0
  · by_cases hw : fs.existsSync (pathJoin dir (t ++ ".wasm")) = false
    · simp [loadCircuit, hl, hw]
    · by_cases hz : fs.existsSync (pathJoin dir (t ++ "_final.zkey")) = false
      · simp [loadCircuit, hl, hw, hz]
      · have hfresh := lookupCircuit_append_fresh hl
          (⟨pathJoin dir (t ++ ".wasm"), pathJoin dir (t ++ "_final.zkey")⟩ : Circuit)
        simp [loadCircuit, hl, hw, hz, hfresh]
  · simp [loadCircuit, hl]

/-- C8: a request body missing a required field is answered 400 before any
circuit or prover activity: `/prove` without `input` and `/verify` without
`proof` or `publicSignals` return 400 with an error object, leave the cache
untouched, probe no storage, and make no snarkjs call; an absent
`circuitType` is no error — both handlers behave exactly as if it were
"spending". -/
theorem missing_field_400_without_side_effects (env : ServiceEnv)
    (circuits : Circuits) (clk : Clock) :
    (∀ ct, proveHandler env circuits ⟨none, ct⟩ clk =
      ⟨⟨400, .vobj [("error", .vstr "Missing input parameter")]⟩,
       circuits, [], 0⟩) ∧
    (∀ req : VerifyReq, req.proof = none ∨ req.publicSignals = none →
      verifyHandler env circuits req clk =
        ⟨⟨400, .vobj [("error", .vstr "Missing proof or publicSignals")]⟩,
         circuits, [], 0⟩) ∧
    (∀ input, proveHandler env circuits ⟨some input, none⟩ clk =
      proveHandler env circuits ⟨some input, some "spending"⟩ clk) ∧
    (∀ proof publicSignals,
      verifyHandler env circuits ⟨some proof, some publicSignals, none⟩ clk =
        verifyHandler env circuits
          ⟨some proof, some publicSignals, some "spending"⟩ clk) := by
  refine ⟨fun ct => rfl, ?_, fun input => rfl, fun proof publicSignals => rfl⟩
  intro req hmiss
  rcases hp : req.proof with _ | proof
  · simp [verifyHandler, hp]
  · rcases hs : req.publicSignals with _ | publicSignals
    · simp [verifyHandler, hp, hs]
    · rw [hp, hs] at hmiss
      simp at hmiss

/-- Witness for C8: a `/verify` request carrying only `publicSignals` is
refused with 400, cache and storage untouched. -/
theorem missing_field_400_without_side_effects_witness :
    verifyHandler envOk [] ⟨none, some signalsV, none⟩ clk0 =
      ⟨⟨400, .vobj [("error", .vstr "Missing proof or publicSignals")]⟩,
       [], [], 0⟩ :=
  (missing_field_400_without_side_effects envOk [] clk0).2.1
    ⟨none, some signalsV, none⟩ (Or.inl rfl)

/-- C7 counterexample: a concrete successful `POST /prove` response whose
metadata keys are `circuitType`, `duration`, `timestamp` — there is no
`durationMs` field, contrary to the claim. -/
theorem prove_metadata_duration_not_durationMs :
    (proveHandler envOk [] ⟨some (.vobj [("a", .vstr "1")]), none⟩ clk0).resp.status
        = 200 ∧
    ∃ md,
      bodyLookup (proveHandler envOk []
          ⟨some (.vobj [("a", .vstr "1")]), none⟩ clk0).resp.body "metadata" =
        some md ∧
      objKeys md = ["circuitType", "duration", "timestamp"] ∧
      bodyLookup md "durationMs" = none := by
  exact ⟨rfl, respMetadata "spending" clk0, rfl, rfl, rfl⟩

/-- C7 amended: every successful `POST /prove` response body has exactly the
keys `proof`, `publicSignals`, `metadata`, and its metadata has exactly the
fields `circuitType`, `duration` (elapsed milliseconds), and `timestamp`. -/
theorem prove_success_response_shape (env : ServiceEnv) (circuits : Circuits)
    (req : ProveReq) (clk : Clock)
    (h200 : (proveHandler env circuits req clk).resp.status = 200) :
    objKeys (proveHandler env circuits req clk).resp.body =
      ["proof", "publicSignals", "metadata"] ∧
    ∃ md,
      bodyLookup (proveHandler env circuits req clk).resp.body "metadata" =
        some md ∧
      objKeys md = ["circuitType", "duration", "timestamp"] := by
  rcases hi : req.input with _ | input
  · simp [proveHandler, hi] at h200
  · by_cases htr : jsTruthy input = false
    · simp [proveHandler, hi, htr] at h200
    · rcases hres : (loadCircuit env.fs env.circuitDir circuits
          (req.circuitType.getD "spending")).result with e | c
      · simp [proveHandler, hi, htr, hres] at h200
      · rcases hfp : env.ops.fullProve input c.wasm c.zkey with e | pp
        · simp [proveHandler, hi, htr, hres, hfp] at h200
        · obtain ⟨proof, publicSignals⟩ := pp
          refine ⟨?_, respMetadata (req.circuitType.getD "spending") clk, ?_, rfl⟩
          · simp [proveHandler, hi, htr, hres, hfp, objKeys]
          · simp [proveHandler, hi, htr, hres, hfp, bodyLookup, objLookup]

/-- Witness for the amended C7 at a concrete successful request. -/
theorem prove_success_response_shape_witness :
    objKeys (proveHandler envOk []
        ⟨some (.vobj [("a", .vstr "1")]), none⟩ clk0).resp.body =
      ["proof", "publicSignals", "metadata"] ∧
    ∃ md,
      bodyLookup (proveHandler envOk []
          ⟨some (.vobj [("a", .vstr "1")]), none⟩ clk0).resp.body "metadata" =
        some md ∧
      objKeys md = ["circuitType", "duration", "timestamp"] :=
  prove_success_response_shape envOk [] ⟨some (.vobj [("a", .vstr "1")]), none⟩
    clk0 rfl

/-- C5 counterexample: in an environment where the artifact files and the
precomputed verification-key file all exist but that file's contents fail to
parse, `POST /verify` answers 500 although the precomputed key is present —
refuting "responds with a 500 verification-key-resolution failure only when
the precomputed key is absent and derivation fails". -/
theorem verify_500_with_precomputed_key_present :
    (verifyHandler envBadVKey [] ⟨some proofV, some signalsV, none⟩ clk0).resp.status
        = 500 ∧
    envBadVKey.fs.existsSync
      (replaceFirst "/c/spending_final.zkey" "_final.zkey"
        "_verification_key.json") = true := ⟨rfl, rfl⟩

/-- C5 amended: for a request whose circuit loads, the handler uses the
precomputed verification-key file (read, then parsed) exactly when it exists
and derives the key from the proving key exactly when it does not; a
verification-key-resolution 500 occurs exactly when the precomputed file
exists but cannot be read or parsed, or is absent and derivation fails. -/
theorem verify_vkey_resolution_amended (env : ServiceEnv)
    (circuits : Circuits) (proof publicSignals : JSVal) (ct : Option String)
    (clk : Clock) (c : Circuit)
    (htp : jsTruthy proof = true) (hts : jsTruthy publicSignals = true)
    (hload : (loadCircuit env.fs env.circuitDir circuits
        (ct.getD "spending")).result = .ok c) :
    ((verifyHandler env circuits ⟨some proof, some publicSignals, ct⟩ clk).resp =
      match (resolveVKey env c).1 with
      | .error m => ⟨500, errorBody env m⟩
      | .ok vKey =>
        match env.ops.groth16Verify vKey publicSignals proof with
        | .error m => ⟨500, errorBody env m⟩
        | .ok b => ⟨200, .vobj [("valid", .vbool b),
            ("metadata", respMetadata (ct.getD "spending") clk)]⟩) ∧
    (env.fs.existsSync
        (replaceFirst c.zkey "_final.zkey" "_verification_key.json") = true →
      (resolveVKey env c).1 =
        match env.fs.readFileSync
            (replaceFirst c.zkey "_final.zkey" "_verification_key.json") with
        | .error e => .error e
        | .ok contents => env.ops.parseJSON contents) ∧
    (env.fs.existsSync
        (replaceFirst c.zkey "_final.zkey" "_verification_key.json") = false →
      (resolveVKey env c).1 = env.ops.exportVerificationKey c.zkey) ∧
    ((∃ m, (resolveVKey env c).1 = .error m) ↔
      ((env.fs.existsSync
          (replaceFirst c.zkey "_final.zkey" "_verification_key.json") = true ∧
        ((∃ e, env.fs.readFileSync
            (replaceFirst c.zkey "_final.zkey" "_verification_key.json") =
              .error e) ∨
         (∃ contents e,
            env.fs.readFileSync
              (replaceFirst c.zkey "_final.zkey" "_verification_key.json") =
                .ok contents ∧
            env.ops.parseJSON contents = .error e))) ∨
       (env.fs.existsSync
          (replaceFirst c.zkey "_final.zkey" "_verification_key.json") = false ∧
        ∃ e, env.ops.exportVerificationKey c.zkey = .error e))) := by
  refine ⟨?_, ?_, ?_, ?_⟩
  · rcases hvk : (resolveVKey env c).1 with m | vKey
    · simp [verifyHandler, htp, hts, hload, hvk]
    · rcases hv : env.ops.groth16Verify vKey publicSignals proof with m | b
      · simp [verifyHandler, htp, hts, hload, hvk, hv]
      · simp [verifyHandler, htp, hts, hload, hvk, hv]
  · intro hex
    rcases hrd : env.fs.readFileSync
        (replaceFirst c.zkey "_final.zkey" "_verification_key.json") with e | s
    · simp [resolveVKey, hex, hrd]
    · simp [resolveVKey, hex, hrd]
  · intro hex
    simp [resolveVKey, hex]
  · by_cases hex : env.fs.existsSync
        (replaceFirst c.zkey "_final.zkey" "_verification_key.json") = true
    · rcases hrd : env.fs.readFileSync
          (replaceFirst c.zkey "_final.zkey" "_verification_key.json") with e | s
      · simp [resolveVKey, hex, hrd]
      · rcases hpj : env.ops.parseJSON s with e | vk
        · simp [resolveVKey, hex, hrd, hpj]
        · simp [resolveVKey, hex, hrd, hpj]
    · rw [Bool.not_eq_true] at hex
      rcases hdk : env.ops.exportVerificationKey c.zkey with e | vk
      · simp [resolveVKey, hex, hdk]
      · simp [resolveVKey, hex, hdk]

/-- Witness for the amended C5: in `envOk` the precomputed key file exists,
parses, and verification succeeds, so the response is `{valid: true}`. -/
theorem verify_vkey_resolution_amended_witness :
    (verifyHandler envOk [] ⟨some proofV, some signalsV, none⟩ clk0).resp =
      ⟨200, .vobj [("valid", .vbool true),
        ("metadata", respMetadata "spending" clk0)]⟩ := by
  have h := verify_vkey_resolution_amended envOk [] proofV signalsV none clk0
    ⟨"/c/spending.wasm", "/c/spending_final.zkey"⟩ rfl rfl rfl
  rw [h.1]
  rfl

/-- C6: the `/verify` handler is deterministic and observationally stateless
across repeated calls: running the same request twice in succession (the
second run on whatever cache the first left behind, at arbitrary other clock
readings) yields the same HTTP status and the same `valid` value — the
result depends only on the request, the artifacts, and the verifier,
not on the cache's prior contents. -/
theorem verify_deterministic_across_calls (env : ServiceEnv)
    (circuits : Circuits) (req : VerifyReq) (clk clk2 : Clock) :
    (verifyHandler env (verifyHandler env circuits req clk).circuits req
        clk2).resp.status =
      (verifyHandler env circuits req clk).resp.status ∧
    bodyLookup (verifyHandler env (verifyHandler env circuits req clk).circuits
        req clk2).resp.body "valid" =
      bodyLookup (verifyHandler env circuits req clk).resp.body "valid" := by
  rcases hp : req.proof with _ | proof
  · simp [verifyHandler, hp]
  · rcases hs : req.publicSignals with _ | publicSignals
    · simp [verifyHandler, hp, hs]
    · by_cases htr : jsTruthy proof = false ∨ jsTruthy publicSignals = false
      · simp [verifyHandler, hp, hs, htr]
      · have hrr := loadCircuit_rerun env.fs env.circuitDir circuits
          (req.circuitType.getD "spending")
        rcases hres : (loadCircuit env.fs env.circuitDir circuits
            (req.circuitType.getD "spending")).result with e | c
        · have hres2 := hrr.1.trans hres
          simp [verifyHandler, hp, hs, htr, hres, hres2]
        · have hres2 := hrr.1.trans hres
          rcases hvk : (resolveVKey env c).1 with m | vKey
          · simp [verifyHandler, hp, hs, htr, hres, hres2, hvk]
          · rcases hv : env.ops.groth16Verify vKey publicSignals proof
              with m | b
            · simp [verifyHandler, hp, hs, htr, hres, hres2, hvk, hv]
            · simp [verifyHandler, hp, hs, htr, hres, hres2, hvk, hv,
                bodyLookup, objLookup]

end ShadowPay
